import Mathlib

/-!
# pincode-api: the search handler of `main.go`

A shallow embedding of `searchHandler` (main.go, lines 63-194) and
`renderTemplate` (lines 196-203).  The handler is a straight-line program
around one bounded retry loop; everything it does to the outside world is
recorded, in program order, as a list of `Event`s.  The library calls whose
results the handler branches on (`http.NewRequest`, `client.Do`,
`ioutil.ReadAll`, `json.Unmarshal`, `template.ParseFiles`) are fields of an
environment `Env`, so every theorem quantifies over all their possible
results.  Go `error` values are represented by their text.
-/

namespace Pincode

/-! ## Data model (main.go, lines 18-43) -/

/-- The record `PostOffice` of main.go, lines 18-31. -/
structure PostOffice where
  Name : String
  Description : String
  BranchType : String
  DeliveryStatus : String
  Circle : String
  District : String
  Division : String
  Region : String
  Block : String
  State : String
  Country : String
  Pincode : String
deriving DecidableEq, Repr

/-- The record `PostalResponse` of main.go, lines 33-37. -/
structure PostalResponse where
  Message : String
  Status : String
  PostOffice : List Pincode.PostOffice
deriving DecidableEq, Repr

/-- The record `PageData` of main.go, lines 39-43; the nil pointer is `none`. -/
structure PageData where
  Pincode : String
  Response : Option PostalResponse
  Error : String
deriving DecidableEq, Repr

/-! ## The outside world -/

/-- The parts of `http.Request` the handler sets. -/
structure Request where
  Method : String
  URL : String
  Header : List (String × String)
deriving DecidableEq, Repr

/-- The parts of `http.Response` the handler reads: the status line and what
`ioutil.ReadAll(resp.Body)` returns (the bytes, or the text of the error). -/
structure HttpResponse where
  Status : String
  Body : Except String String

/-- Results of the library calls the handler branches on. -/
structure Env where
  /-- The call `http.NewRequest(method, url, nil)`: the text of the error, if any. -/
  newRequest : String → String → Option String
  /-- The call `client.Do(req)` at the given attempt (0-based): a response,
  or the text of the transport error. -/
  clientDo : Request → Nat → Except String HttpResponse
  /-- The call `json.Unmarshal(body, &responses)`: the decoded slice, or the
  text of the error. -/
  unmarshal : String → Except String (List PostalResponse)
  /-- The call `template.ParseFiles(tmpl)`: the text of the error, if any. -/
  parseFiles : String → Option String

/-- What the handler does to the outside world. -/
inductive Event where
  /-- A line written by `log.Printf` or `log.Println`. -/
  | log (line : String)
  /-- A call of `client.Do`, with the loop index. -/
  | clientDo (req : Request) (attempt : Nat)
  /-- A call of `time.Sleep`, in seconds. -/
  | sleep (seconds : Nat)
  /-- A call of `renderTemplate` with the page view bound to the template. -/
  | render (tmpl : String) (data : PageData)
  /-- The call `http.Error(w, msg, code)`. -/
  | httpError (msg : String) (code : Nat)
  /-- The call `t.Execute(w, data)`. -/
  | execute (data : PageData)
  /-- The deferred `resp.Body.Close()`. -/
  | bodyClose
  /-- A run-time panic (index out of range, nil dereference). -/
  | panic (msg : String)

/-! ## The code -/

/-- The function `renderTemplate` of main.go, lines 196-203.  The first event
records the call itself. -/
def renderTemplate (env : Env) (tmpl : String) (data : PageData) : List Event :=
  Event.render tmpl data ::
    (match env.parseFiles tmpl with
     | some err => [Event.httpError err 500]
     | none => [Event.execute data])

/-- The constant `maxRetries := 3` of main.go, line 115. -/
def maxRetries : Nat := 3

/-- How control leaves the retry loop of main.go, lines 116-139. -/
inductive LoopExit where
  /-- The `return` of line 135: the handler is finished. -/
  | returned
  /-- The `break` of line 123 or a false loop condition: control reaches
  line 140 with these values of `resp` and `err`. -/
  | done (resp : Option HttpResponse) (err : Option String)

/-- The loop `for i := 0; i < maxRetries; i++` of main.go, lines 116-139.
The first numeric argument counts the iterations still allowed by the loop
condition, so the index is `i = maxRetries - (n + 1)`; `resp` and `err` are
the variables of lines 98 and 114 as the iteration finds them. -/
def retryLoop (env : Env) (pincode : String) (req : Request) (maxRetries : Nat) :
    Nat → Option HttpResponse → Option String → List Event × LoopExit
  | 0, resp, err => ([], LoopExit.done resp err)
  | n + 1, _, _ =>
    let i := maxRetries - (n + 1)
    match env.clientDo req i with
    | Except.ok r => ([Event.clientDo req i], LoopExit.done (some r) none)
    | Except.error e =>
      if i = maxRetries - 1 then
        let errMsg := "Error making request after " ++ toString maxRetries ++
          " attempts: " ++ e
        (Event.clientDo req i :: Event.log errMsg ::
          renderTemplate env "templates/index.html"
            { Pincode := pincode, Response := none,
              Error := "Unable to connect to the postal service. Please try again later." },
         LoopExit.returned)
      else
        let rest := retryLoop env pincode req maxRetries n none (some e)
        (Event.clientDo req i :: Event.sleep (i + 1) :: rest.1, rest.2)

/-- Lines 166-193 of main.go: decoding the body and choosing the page view.
Each `responses[0]` is a checked index; a failed check is a panic. -/
def mapResponse (env : Env) (pincode : String) (body : String) : List Event :=
  match env.unmarshal body with
  | Except.error e =>
    let errMsg := "Error parsing JSON: " ++ e
    Event.log errMsg ::
      renderTemplate env "templates/index.html"
        { Pincode := pincode, Response := none, Error := errMsg }
  | Except.ok responses =>
    -- line 177: `len(responses) == 0 || responses[0].Status != "Success"`
    let failed : Option Bool :=
      if responses.length = 0 then some true
      else (responses[0]?).map (fun r => decide (r.Status ≠ "Success"))
    match failed with
    | none => [Event.panic "index out of range"]
    | some true =>
      -- line 179: `len(responses) > 0 && responses[0].Message != ""`
      let useMessage : Option Bool :=
        if responses.length > 0 then
          (responses[0]?).map (fun r => decide (r.Message ≠ ""))
        else some false
      match useMessage with
      | none => [Event.panic "index out of range"]
      | some true =>
        match responses[0]? with
        | none => [Event.panic "index out of range"]
        | some r =>
          Event.log r.Message ::
            renderTemplate env "templates/index.html"
              { Pincode := pincode, Response := none, Error := r.Message }
      | some false =>
        let errMsg := "No data found for the provided pincode"
        Event.log errMsg ::
          renderTemplate env "templates/index.html"
            { Pincode := pincode, Response := none, Error := errMsg }
    | some false =>
      match responses[0]? with
      | none => [Event.panic "index out of range"]
      | some r =>
        renderTemplate env "templates/index.html"
          { Pincode := pincode, Response := some r, Error := "" }

/-- Lines 140-194 of main.go: what the handler does once the loop is left
with the given `resp` and `err`. -/
def afterLoop (env : Env) (pincode : String) (resp : Option HttpResponse)
    (err : Option String) : List Event :=
  match err with
  | some e =>
    let errMsg := "Error making request: " ++ e
    Event.log errMsg ::
      renderTemplate env "templates/index.html"
        { Pincode := pincode, Response := none, Error := errMsg }
  | none =>
    match resp with
    | none => [Event.panic "nil pointer dereference"]
    | some r =>
      Event.log ("Response status: " ++ r.Status) ::
        (match r.Body with
         | Except.error e =>
           let errMsg := "Error reading response: " ++ e
           Event.log errMsg ::
             renderTemplate env "templates/index.html"
               { Pincode := pincode, Response := none, Error := errMsg }
         | Except.ok body =>
           Event.log ("Response body: " ++ body) :: mapResponse env pincode body)
        ++ [Event.bodyClose]

/-- The request of lines 98-111: method, URL and the two headers. -/
def buildRequest (url : String) : Request :=
  { Method := "GET"
    URL := url
    Header :=
      [("User-Agent", "Mozilla/5.0 (Macintosh; Intel Mac OS X 10_15_7) AppleWebKit/537.36 (KHTML, like Gecko) Chrome/91.0.4472.124 Safari/537.36"),
       ("Accept", "application/json")] }

/-- The URL of main.go, line 73. -/
def upstreamURL (pincode : String) : String :=
  "https://api.postalpincode.in/pincode/" ++ pincode

/-- The function `searchHandler` of main.go, lines 63-194, applied to the
form value `pincode`. -/
def searchHandler (env : Env) (pincode : String) : List Event :=
  if pincode = "" then
    renderTemplate env "templates/index.html"
      { Pincode := pincode, Response := none, Error := "Please enter a pincode" }
  else
    let url := upstreamURL pincode
    Event.log ("Making request to: " ++ url) ::
      (match env.newRequest "GET" url with
       | some e =>
         let errMsg := "Error creating request: " ++ e
         Event.log errMsg ::
           renderTemplate env "templates/index.html"
             { Pincode := pincode, Response := none, Error := errMsg }
       | none =>
         let req := buildRequest url
         let loop := retryLoop env pincode req maxRetries maxRetries none none
         match loop.2 with
         | LoopExit.returned => loop.1
         | LoopExit.done resp err => loop.1 ++ afterLoop env pincode resp err)

/-! ## Observations on a trace -/

/-- The page views handed to `renderTemplate`, in order. -/
def rendered : List Event → List PageData
  | [] => []
  | Event.render _ d :: t => d :: rendered t
  | _ :: t => rendered t

/-- The number of calls of `client.Do`. -/
def attempts : List Event → Nat
  | [] => 0
  | Event.clientDo _ _ :: t => attempts t + 1
  | _ :: t => attempts t

/-- The durations of the calls of `time.Sleep`, in order. -/
def sleeps : List Event → List Nat
  | [] => []
  | Event.sleep s :: t => s :: sleeps t
  | _ :: t => sleeps t

/-- The number of panics. -/
def panics : List Event → Nat
  | [] => 0
  | Event.panic _ :: t => panics t + 1
  | _ :: t => panics t

/-- What is left of a trace when only the calls of `client.Do` (as
`Sum.inl` of the loop index) and of `time.Sleep` (as `Sum.inr` of the
seconds) are kept. -/
def network : List Event → List (Nat ⊕ Nat)
  | [] => []
  | Event.clientDo _ i :: t => Sum.inl i :: network t
  | Event.sleep s :: t => Sum.inr s :: network t
  | _ :: t => network t

/-- The form value consists of whitespace characters only (the empty string
included). -/
def isBlank (s : String) : Bool := s.toList.all Char.isWhitespace

/-- The request is created and, of the at most `maxRetries` attempts, the
first one that does not fail with a transport error is attempt `k` (0-based);
it returns `resp`. -/
def FirstSuccess (env : Env) (pincode : String) (k : Nat) (resp : HttpResponse) : Prop :=
  env.newRequest "GET" (upstreamURL pincode) = none ∧
  k < maxRetries ∧
  (∀ j, j < k → ∃ e, env.clientDo (buildRequest (upstreamURL pincode)) j = Except.error e) ∧
  env.clientDo (buildRequest (upstreamURL pincode)) k = Except.ok resp

/-- The handler obtains `body` as the upstream body: some attempt within the
bound succeeds and its body is read without error. -/
def UpstreamBody (env : Env) (pincode : String) (body : String) : Prop :=
  ∃ k resp, FirstSuccess env pincode k resp ∧ resp.Body = Except.ok body

/-- The invariant of `PageData` stated in the data model: the result is
present exactly when the error message is empty. -/
def PageData.exactlyOne (d : PageData) : Prop :=
  d.Response.isSome = true ↔ d.Error = ""

/-- Two environments that differ at most in the text of the transport errors
returned by `client.Do`. -/
def SameUpToErrorText (env env2 : Env) : Prop :=
  env.newRequest = env2.newRequest ∧
  env.unmarshal = env2.unmarshal ∧
  env.parseFiles = env2.parseFiles ∧
  ∀ req i,
    (∃ r, env.clientDo req i = Except.ok r ∧ env2.clientDo req i = Except.ok r) ∨
    (∃ e e2, env.clientDo req i = Except.error e ∧ env2.clientDo req i = Except.error e2)

/-- The calls of `client.Do` and `time.Sleep` of a loop whose first `k`
attempts fail and whose attempt `k` succeeds. -/
def loopNetwork (k : Nat) : List (Nat ⊕ Nat) :=
  (List.range k).flatMap (fun j => [Sum.inl j, Sum.inr (j + 1)]) ++ [Sum.inl k]

/-! ## Sample environments -/

/-- An environment in which the request is always created, the template
always parses, attempt `i` has outcome `outcomes i` and every body decodes
to `decoded`. -/
def stubEnv (outcomes : Nat → Except String HttpResponse)
    (decoded : Except String (List PostalResponse)) : Env :=
  { newRequest := fun _ _ => none
    clientDo := fun _ i => outcomes i
    unmarshal := fun _ => decoded
    parseFiles := fun _ => none }

/-- The upstream cannot be reached: every attempt fails with the given text. -/
def envDown (text : String) : Env :=
  stubEnv (fun _ => Except.error text) (Except.ok [])

def connaughtPlace : PostOffice :=
  { Name := "Connaught Place", Description := "", BranchType := "Sub Post Office",
    DeliveryStatus := "Non-Delivery", Circle := "Delhi", District := "New Delhi",
    Division := "New Delhi Central", Region := "Delhi", Block := "New Delhi",
    State := "Delhi", Country := "India", Pincode := "110001" }

def janpath : PostOffice :=
  { Name := "Janpath", Description := "", BranchType := "Sub Post Office",
    DeliveryStatus := "Non-Delivery", Circle := "Delhi", District := "New Delhi",
    Division := "New Delhi Central", Region := "Delhi", Block := "New Delhi",
    State := "Delhi", Country := "India", Pincode := "110001" }

/-- A response `200 OK` whose body is read as `body`. -/
def okResponse (body : String) : HttpResponse :=
  { Status := "200 OK", Body := Except.ok body }

/-- The upstream answers the first attempt, and the body decodes to
`decoded`. -/
def envUp (body : String) (decoded : Except String (List PostalResponse)) : Env :=
  stubEnv (fun _ => Except.ok (okResponse body)) decoded

/-- The first attempt fails, the second is answered. -/
def envSecondTry (body : String) (decoded : Except String (List PostalResponse)) : Env :=
  stubEnv (fun i => if i = 0 then Except.error "connection reset by peer"
                    else Except.ok (okResponse body)) decoded

/-- The URL is refused: `http.NewRequest` fails with the given text. -/
def envBadRequest (text : String) : Env :=
  { newRequest := fun _ _ => some text
    clientDo := fun _ _ => Except.error "unused"
    unmarshal := fun _ => Except.ok []
    parseFiles := fun _ => none }

/-- The page view of lines 131-134. -/
def unavailablePage (pincode : String) : PageData :=
  { Pincode := pincode, Response := none,
    Error := "Unable to connect to the postal service. Please try again later." }

/-! ## Lemmas on observations -/

theorem rendered_append (a b : List Event) : rendered (a ++ b) = rendered a ++ rendered b := by
  induction a with
  | nil => rfl
  | cons e t ih => cases e <;> simp [rendered, ih]

theorem attempts_append (a b : List Event) : attempts (a ++ b) = attempts a + attempts b := by
  induction a with
  | nil => simp [attempts]
  | cons e t ih =>
    cases e
    all_goals simp [attempts, ih]
    omega

theorem sleeps_append (a b : List Event) : sleeps (a ++ b) = sleeps a ++ sleeps b := by
  induction a with
  | nil => rfl
  | cons e t ih => cases e <;> simp [sleeps, ih]

theorem panics_append (a b : List Event) : panics (a ++ b) = panics a + panics b := by
  induction a with
  | nil => simp [panics]
  | cons e t ih =>
    cases e
    all_goals simp [panics, ih]
    omega

theorem network_append (a b : List Event) : network (a ++ b) = network a ++ network b := by
  induction a with
  | nil => rfl
  | cons e t ih => cases e <;> simp [network, ih]

theorem rendered_log (line : String) (t : List Event) :
    rendered (Event.log line :: t) = rendered t := rfl

theorem attempts_log (line : String) (t : List Event) :
    attempts (Event.log line :: t) = attempts t := rfl

theorem sleeps_log (line : String) (t : List Event) :
    sleeps (Event.log line :: t) = sleeps t := rfl

theorem panics_log (line : String) (t : List Event) :
    panics (Event.log line :: t) = panics t := rfl

theorem network_log (line : String) (t : List Event) :
    network (Event.log line :: t) = network t := rfl

theorem rendered_renderTemplate (env : Env) (tmpl : String) (d : PageData) :
    rendered (renderTemplate env tmpl d) = [d] := by
  unfold renderTemplate
  cases env.parseFiles tmpl <;> rfl

theorem attempts_renderTemplate (env : Env) (tmpl : String) (d : PageData) :
    attempts (renderTemplate env tmpl d) = 0 := by
  unfold renderTemplate
  cases env.parseFiles tmpl <;> rfl

theorem sleeps_renderTemplate (env : Env) (tmpl : String) (d : PageData) :
    sleeps (renderTemplate env tmpl d) = [] := by
  unfold renderTemplate
  cases env.parseFiles tmpl <;> rfl

theorem panics_renderTemplate (env : Env) (tmpl : String) (d : PageData) :
    panics (renderTemplate env tmpl d) = 0 := by
  unfold renderTemplate
  cases env.parseFiles tmpl <;> rfl

theorem network_renderTemplate (env : Env) (tmpl : String) (d : PageData) :
    network (renderTemplate env tmpl d) = [] := by
  unfold renderTemplate
  cases env.parseFiles tmpl <;> rfl

theorem append_ne_empty (a e : String) (h : a.length ≠ 0) : a ++ e ≠ "" := by
  intro h2
  have h3 := congrArg String.length h2
  simp at h3
  exact h h3.1

/-! ## The response mapper -/

/-- The mapper never calls the upstream, never sleeps and never panics. -/
theorem mapResponse_quiet (env : Env) (pincode body : String) :
    attempts (mapResponse env pincode body) = 0 ∧
    sleeps (mapResponse env pincode body) = [] ∧
    network (mapResponse env pincode body) = [] ∧
    panics (mapResponse env pincode body) = 0 := by
  unfold mapResponse renderTemplate
  cases env.parseFiles "templates/index.html" <;>
  cases env.unmarshal body with
  | error e => simp [attempts, sleeps, network, panics]
  | ok responses =>
    cases responses with
    | nil => simp [attempts, sleeps, network, panics]
    | cons r rest =>
      by_cases hs : r.Status = "Success" <;> by_cases hm : r.Message = "" <;>
        simp [hs, hm, attempts, sleeps, network, panics]

theorem rendered_mapResponse_error (env : Env) (pincode body e : String)
    (h : env.unmarshal body = Except.error e) :
    rendered (mapResponse env pincode body) =
      [{ Pincode := pincode, Response := none, Error := "Error parsing JSON: " ++ e }] := by
  unfold mapResponse renderTemplate
  cases env.parseFiles "templates/index.html" <;> simp [h, rendered]

theorem rendered_mapResponse_nil (env : Env) (pincode body : String)
    (h : env.unmarshal body = Except.ok []) :
    rendered (mapResponse env pincode body) =
      [{ Pincode := pincode, Response := none,
         Error := "No data found for the provided pincode" }] := by
  unfold mapResponse renderTemplate
  cases env.parseFiles "templates/index.html" <;> simp [h, rendered]

theorem rendered_mapResponse_failure (env : Env) (pincode body : String)
    (first : PostalResponse) (rest : List PostalResponse)
    (h : env.unmarshal body = Except.ok (first :: rest)) (hs : first.Status ≠ "Success") :
    rendered (mapResponse env pincode body) =
      [{ Pincode := pincode, Response := none,
         Error := if first.Message = "" then "No data found for the provided pincode"
                  else first.Message }] := by
  unfold mapResponse renderTemplate
  cases env.parseFiles "templates/index.html" <;> by_cases hm : first.Message = "" <;>
    simp [h, hs, hm, rendered]

theorem rendered_mapResponse_success (env : Env) (pincode body : String)
    (first : PostalResponse) (rest : List PostalResponse)
    (h : env.unmarshal body = Except.ok (first :: rest)) (hs : first.Status = "Success") :
    rendered (mapResponse env pincode body) =
      [{ Pincode := pincode, Response := some first, Error := "" }] := by
  unfold mapResponse renderTemplate
  cases env.parseFiles "templates/index.html" <;> simp [h, hs, rendered]

/-! ## The retry loop -/


/-- A loop whose first `k` attempts fail and whose attempt `k < 3` succeeds
leaves by `break` after exactly these calls. -/
theorem retryLoop_firstSuccess (env : Env) (pincode : String) (req : Request) (k : Nat)
    (resp : HttpResponse) (hk : k < maxRetries)
    (hfail : ∀ j, j < k → ∃ e, env.clientDo req j = Except.error e)
    (hok : env.clientDo req k = Except.ok resp) :
    ∃ evs, retryLoop env pincode req maxRetries maxRetries none none =
        (evs, LoopExit.done (some resp) none) ∧
      rendered evs = [] ∧ panics evs = 0 ∧ network evs = loopNetwork k ∧
      attempts evs = k + 1 ∧ sleeps evs = List.range' 1 k := by
  unfold maxRetries at hk
  interval_cases k
  · refine ⟨[Event.clientDo req 0], ?_, ?_⟩
    · simp [retryLoop, maxRetries, hok]
    · simp [rendered, panics, network, attempts, sleeps, loopNetwork]
  · obtain ⟨e0, h0⟩ := hfail 0 (by omega)
    refine ⟨[Event.clientDo req 0, Event.sleep 1, Event.clientDo req 1], ?_, ?_⟩
    · simp [retryLoop, maxRetries, hok, h0]
    · simp [rendered, panics, network, attempts, sleeps, loopNetwork, List.range',
        List.range_succ]
  · obtain ⟨e0, h0⟩ := hfail 0 (by omega)
    obtain ⟨e1, h1⟩ := hfail 1 (by omega)
    refine ⟨[Event.clientDo req 0, Event.sleep 1, Event.clientDo req 1, Event.sleep 2,
      Event.clientDo req 2], ?_, ?_⟩
    · simp [retryLoop, maxRetries, hok, h0, h1]
    · simp [rendered, panics, network, attempts, sleeps, loopNetwork, List.range',
        List.range_succ]

/-- A loop whose three attempts all fail leaves by the `return` of line 135,
having rendered the page of lines 131-134. -/
theorem retryLoop_allFail (env : Env) (pincode : String) (req : Request)
    (hfail : ∀ j, j < maxRetries → ∃ e, env.clientDo req j = Except.error e) :
    ∃ evs, retryLoop env pincode req maxRetries maxRetries none none =
        (evs, LoopExit.returned) ∧
      rendered evs = [unavailablePage pincode] ∧ panics evs = 0 ∧
      network evs = [Sum.inl 0, Sum.inr 1, Sum.inl 1, Sum.inr 2, Sum.inl 2] ∧
      attempts evs = 3 ∧ sleeps evs = [1, 2] := by
  obtain ⟨e0, h0⟩ := hfail 0 (by decide)
  obtain ⟨e1, h1⟩ := hfail 1 (by decide)
  obtain ⟨e2, h2⟩ := hfail 2 (by decide)
  refine ⟨Event.clientDo req 0 :: Event.sleep 1 :: Event.clientDo req 1 :: Event.sleep 2 ::
    Event.clientDo req 2 ::
    Event.log ("Error making request after " ++ toString maxRetries ++ " attempts: " ++ e2) ::
    renderTemplate env "templates/index.html" (unavailablePage pincode), ?_, ?_⟩
  · simp [retryLoop, maxRetries, h0, h1, h2, unavailablePage]
  · unfold renderTemplate
    cases env.parseFiles "templates/index.html" <;>
      simp [rendered, panics, network, attempts, sleeps, unavailablePage]

/-- Every outcome of the three attempts is one of the two above. -/
theorem clientDo_cases (env : Env) (req : Request) :
    (∀ j, j < maxRetries → ∃ e, env.clientDo req j = Except.error e) ∨
    ∃ k resp, k < maxRetries ∧
      (∀ j, j < k → ∃ e, env.clientDo req j = Except.error e) ∧
      env.clientDo req k = Except.ok resp := by
  cases h0 : env.clientDo req 0 with
  | ok r => exact Or.inr ⟨0, r, by decide, by intro j hj; omega, h0⟩
  | error e0 =>
    cases h1 : env.clientDo req 1 with
    | ok r =>
      refine Or.inr ⟨1, r, by decide, ?_, h1⟩
      intro j hj
      have : j = 0 := by omega
      subst this
      exact ⟨e0, h0⟩
    | error e1 =>
      cases h2 : env.clientDo req 2 with
      | ok r =>
        refine Or.inr ⟨2, r, by decide, ?_, h2⟩
        intro j hj
        have : j = 0 ∨ j = 1 := by omega
        rcases this with rfl | rfl
        · exact ⟨e0, h0⟩
        · exact ⟨e1, h1⟩
      | error e2 =>
        refine Or.inl ?_
        intro j hj
        unfold maxRetries at hj
        have : j = 0 ∨ j = 1 ∨ j = 2 := by omega
        rcases this with rfl | rfl | rfl
        · exact ⟨e0, h0⟩
        · exact ⟨e1, h1⟩
        · exact ⟨e2, h2⟩

/-! ## After the loop -/

theorem afterLoop_body (env : Env) (pincode body : String) (resp : HttpResponse)
    (hb : resp.Body = Except.ok body) :
    afterLoop env pincode (some resp) none =
      Event.log ("Response status: " ++ resp.Status) ::
        Event.log ("Response body: " ++ body) ::
          (mapResponse env pincode body ++ [Event.bodyClose]) := by
  simp [afterLoop, hb]

/-- Once a response is there, the handler calls the upstream no more, does
not sleep and does not panic. -/
theorem afterLoop_quiet (env : Env) (pincode : String) (resp : HttpResponse) :
    attempts (afterLoop env pincode (some resp) none) = 0 ∧
    sleeps (afterLoop env pincode (some resp) none) = [] ∧
    network (afterLoop env pincode (some resp) none) = [] ∧
    panics (afterLoop env pincode (some resp) none) = 0 := by
  cases hb : resp.Body with
  | error e =>
    unfold afterLoop renderTemplate
    cases env.parseFiles "templates/index.html" <;>
      simp [hb, attempts, sleeps, network, panics]
  | ok body =>
    obtain ⟨h1, h2, h3, h4⟩ := mapResponse_quiet env pincode body
    rw [afterLoop_body env pincode body resp hb]
    simp [attempts, sleeps, network, panics, attempts_append, sleeps_append, network_append,
      panics_append, h1, h2, h3, h4]

theorem rendered_afterLoop_body (env : Env) (pincode body : String) (resp : HttpResponse)
    (hb : resp.Body = Except.ok body) :
    rendered (afterLoop env pincode (some resp) none) = rendered (mapResponse env pincode body) := by
  rw [afterLoop_body env pincode body resp hb]
  simp [rendered, rendered_append]

theorem afterLoop_congr (env env2 : Env) (pincode : String) (resp : Option HttpResponse)
    (err : Option String) (hu : env.unmarshal = env2.unmarshal)
    (hp : env.parseFiles = env2.parseFiles) :
    afterLoop env pincode resp err = afterLoop env2 pincode resp err := by
  unfold afterLoop mapResponse renderTemplate
  rw [hu, hp]

theorem exactlyOne_mapResponse (env : Env) (pincode body : String) (d : PageData)
    (hd : d ∈ rendered (mapResponse env pincode body)) : d.exactlyOne := by
  cases hu : env.unmarshal body with
  | error e =>
    rw [rendered_mapResponse_error env pincode body e hu] at hd
    simp at hd
    subst hd
    simp only [PageData.exactlyOne, Option.isSome_none, Bool.false_eq_true, false_iff]
    exact append_ne_empty _ _ (by decide)
  | ok responses =>
    cases responses with
    | nil =>
      rw [rendered_mapResponse_nil env pincode body hu] at hd
      simp at hd
      subst hd
      simp [PageData.exactlyOne]
    | cons first rest =>
      by_cases hs : first.Status = "Success"
      · rw [rendered_mapResponse_success env pincode body first rest hu hs] at hd
        simp at hd
        subst hd
        simp [PageData.exactlyOne]
      · rw [rendered_mapResponse_failure env pincode body first rest hu hs] at hd
        simp at hd
        subst hd
        by_cases hm : first.Message = "" <;> simp [PageData.exactlyOne, hm]

theorem exactlyOne_afterLoop (env : Env) (pincode : String) (resp : Option HttpResponse)
    (err : Option String) (d : PageData)
    (hd : d ∈ rendered (afterLoop env pincode resp err)) : d.exactlyOne := by
  cases err with
  | some e =>
    unfold afterLoop renderTemplate at hd
    cases hp : env.parseFiles "templates/index.html" <;> simp [hp, rendered] at hd <;>
      subst hd <;>
      simp only [PageData.exactlyOne, Option.isSome_none, Bool.false_eq_true, false_iff] <;>
      exact append_ne_empty _ _ (by decide)
  | none =>
    cases resp with
    | none => simp [afterLoop, rendered] at hd
    | some r =>
      cases hb : r.Body with
      | error e =>
        unfold afterLoop renderTemplate at hd
        cases hp : env.parseFiles "templates/index.html" <;>
          simp [hp, hb, rendered] at hd <;>
          subst hd <;>
          simp only [PageData.exactlyOne, Option.isSome_none, Bool.false_eq_true, false_iff] <;>
          exact append_ne_empty _ _ (by decide)
      | ok body =>
        rw [rendered_afterLoop_body env pincode body r hb] at hd
        exact exactlyOne_mapResponse env pincode body d hd

/-! ## The handler -/

/-- The trace of a request whose first successful attempt is attempt `k`. -/
theorem searchHandler_firstSuccess (env : Env) (pincode : String) (k : Nat)
    (resp : HttpResponse) (hp : pincode ≠ "") (h : FirstSuccess env pincode k resp) :
    ∃ evs, searchHandler env pincode =
        Event.log ("Making request to: " ++ upstreamURL pincode) ::
          (evs ++ afterLoop env pincode (some resp) none) ∧
      rendered evs = [] ∧ panics evs = 0 ∧ network evs = loopNetwork k ∧
      attempts evs = k + 1 ∧ sleeps evs = List.range' 1 k := by
  obtain ⟨hreq, hk, hfail, hok⟩ := h
  obtain ⟨evs, hloop, hrest⟩ :=
    retryLoop_firstSuccess env pincode (buildRequest (upstreamURL pincode)) k resp hk hfail hok
  exact ⟨evs, by simp [searchHandler, hp, hreq, hloop], hrest⟩

/-- The trace of a request whose three attempts all fail. -/
theorem searchHandler_allFail (env : Env) (pincode : String) (hp : pincode ≠ "")
    (hreq : env.newRequest "GET" (upstreamURL pincode) = none)
    (hfail : ∀ j, j < maxRetries →
      ∃ e, env.clientDo (buildRequest (upstreamURL pincode)) j = Except.error e) :
    ∃ evs, searchHandler env pincode =
        Event.log ("Making request to: " ++ upstreamURL pincode) :: evs ∧
      rendered evs = [unavailablePage pincode] ∧ panics evs = 0 ∧
      network evs = [Sum.inl 0, Sum.inr 1, Sum.inl 1, Sum.inr 2, Sum.inl 2] ∧
      attempts evs = 3 ∧ sleeps evs = [1, 2] := by
  obtain ⟨evs, hloop, hrest⟩ :=
    retryLoop_allFail env pincode (buildRequest (upstreamURL pincode)) hfail
  exact ⟨evs, by simp [searchHandler, hp, hreq, hloop], hrest⟩

/-- With an upstream body in hand the handler renders what the response
mapper renders for that body, and does not panic. -/
theorem searchHandler_body (env : Env) (pincode body : String) (hp : pincode ≠ "")
    (h : UpstreamBody env pincode body) :
    rendered (searchHandler env pincode) = rendered (mapResponse env pincode body) ∧
    panics (searchHandler env pincode) = 0 := by
  obtain ⟨k, resp, hfs, hb⟩ := h
  obtain ⟨evs, htrace, hr, hpn, -, -, -⟩ := searchHandler_firstSuccess env pincode k resp hp hfs
  obtain ⟨-, -, -, hq⟩ := afterLoop_quiet env pincode resp
  rw [htrace]
  constructor
  · rw [rendered_log, rendered_append, hr, rendered_afterLoop_body env pincode body resp hb]
    rfl
  · rw [panics_log, panics_append, hpn, hq]

theorem searchHandler_empty (env : Env) (pincode : String) (hp : pincode = "") :
    searchHandler env pincode = renderTemplate env "templates/index.html"
      { Pincode := pincode, Response := none, Error := "Please enter a pincode" } := by
  simp [searchHandler, hp]

theorem searchHandler_newRequest_error (env : Env) (pincode e : String) (hp : pincode ≠ "")
    (hreq : env.newRequest "GET" (upstreamURL pincode) = some e) :
    searchHandler env pincode =
      Event.log ("Making request to: " ++ upstreamURL pincode) ::
        Event.log ("Error creating request: " ++ e) ::
          renderTemplate env "templates/index.html"
            { Pincode := pincode, Response := none, Error := "Error creating request: " ++ e } := by
  simp [searchHandler, hp, hreq]

/-- Whatever the environment, the handler is in one of four situations. -/
theorem searchHandler_cases (env : Env) (pincode : String) :
    pincode = "" ∨
    (pincode ≠ "" ∧ ∃ e, env.newRequest "GET" (upstreamURL pincode) = some e) ∨
    (pincode ≠ "" ∧ env.newRequest "GET" (upstreamURL pincode) = none ∧
      ∀ j, j < maxRetries →
        ∃ e, env.clientDo (buildRequest (upstreamURL pincode)) j = Except.error e) ∨
    (pincode ≠ "" ∧ ∃ k resp, FirstSuccess env pincode k resp) := by
  by_cases hp : pincode = ""
  · exact Or.inl hp
  · cases hreq : env.newRequest "GET" (upstreamURL pincode) with
    | some e => exact Or.inr (Or.inl ⟨hp, e, rfl⟩)
    | none =>
      rcases clientDo_cases env (buildRequest (upstreamURL pincode)) with h | ⟨k, resp, hk, hf, hok⟩
      · exact Or.inr (Or.inr (Or.inl ⟨hp, rfl, h⟩))
      · exact Or.inr (Or.inr (Or.inr ⟨hp, k, resp, hreq, hk, hf, hok⟩))

/-- The loop always starts with a call of `client.Do` at index 0. -/
theorem retryLoop_head (env : Env) (pincode : String) (req : Request) :
    ∃ t, (retryLoop env pincode req maxRetries maxRetries none none).1 =
      Event.clientDo req 0 :: t := by
  cases h : env.clientDo req 0 with
  | ok r => exact ⟨[], by simp [retryLoop, maxRetries, h]⟩
  | error e => exact ⟨_, by simp only [retryLoop, maxRetries, h]; rfl⟩

/-- Once the request is created, the first thing the handler does after
logging the URL is to call `client.Do` on the request for that URL. -/
theorem searchHandler_head (env : Env) (pincode : String) (hp : pincode ≠ "")
    (hreq : env.newRequest "GET" (upstreamURL pincode) = none) :
    ∃ t, searchHandler env pincode =
      Event.log ("Making request to: " ++ upstreamURL pincode) ::
        Event.clientDo (buildRequest (upstreamURL pincode)) 0 :: t := by
  obtain ⟨t, ht⟩ := retryLoop_head env pincode (buildRequest (upstreamURL pincode))
  cases hl : (retryLoop env pincode (buildRequest (upstreamURL pincode)) maxRetries maxRetries
      none none).2 with
  | returned => exact ⟨t, by simp [searchHandler, hp, hreq, hl, ht]⟩
  | done resp err =>
    exact ⟨t ++ afterLoop env pincode resp err, by simp [searchHandler, hp, hreq, hl, ht]⟩

/-! ## The claims -/

/-- C1, as the code has it: for the empty pincode form value the handler
makes no upstream call and renders exactly one page view, whose Error is
"Please enter a pincode" and whose Response is absent.  Every other form
value, one of whitespace included, passes the test of line 65 (which is
`pincode == ""`, on the untrimmed value) and is handled as a pincode: when
`http.NewRequest` accepts the URL built from it, the handler calls
`client.Do` on the request for that URL, so it makes at least one upstream
call; when `http.NewRequest` refuses the URL, the handler makes no upstream
call and the page view it renders has Response absent and Error
"Error creating request: " followed by the text of the error. -/
theorem empty_pincode_rejected (env : Env) :
    (attempts (searchHandler env "") = 0 ∧
      rendered (searchHandler env "") =
        [{ Pincode := "", Response := none, Error := "Please enter a pincode" }]) ∧
    (∀ pincode : String, pincode ≠ "" →
      env.newRequest "GET" (upstreamURL pincode) = none →
      1 ≤ attempts (searchHandler env pincode) ∧
      ∃ t, searchHandler env pincode =
        Event.log ("Making request to: " ++ upstreamURL pincode) ::
          Event.clientDo (buildRequest (upstreamURL pincode)) 0 :: t) ∧
    (∀ pincode e : String, pincode ≠ "" →
      env.newRequest "GET" (upstreamURL pincode) = some e →
      attempts (searchHandler env pincode) = 0 ∧
      rendered (searchHandler env pincode) =
        [{ Pincode := pincode, Response := none,
           Error := "Error creating request: " ++ e }]) := by
  refine ⟨?_, ?_, ?_⟩
  · rw [searchHandler_empty env "" rfl]
    exact ⟨attempts_renderTemplate _ _ _, rendered_renderTemplate _ _ _⟩
  · intro pincode hp hreq
    obtain ⟨t, ht⟩ := searchHandler_head env pincode hp hreq
    refine ⟨?_, t, ht⟩
    rw [ht, attempts_log]
    simp [attempts]
  · intro pincode e hp hreq
    rw [searchHandler_newRequest_error env pincode e hp hreq]
    exact ⟨by rw [attempts_log, attempts_log, attempts_renderTemplate],
      by rw [rendered_log, rendered_log, rendered_renderTemplate]⟩

/-- Witness of C1 as amended: the form value " " is whitespace only and not
empty; with its request created the handler makes an upstream call.  The
form value of one tab, with its URL refused, makes none and the page shows
the request error, not the validation message. -/
theorem empty_pincode_rejected_witness :
    (isBlank " " = true ∧ " " ≠ "" ∧
      1 ≤ attempts (searchHandler (envDown "dial tcp: i/o timeout") " ")) ∧
    (isBlank "\t" = true ∧ "\t" ≠ "" ∧
      rendered (searchHandler (envBadRequest "net/url: invalid control character in URL")
          "\t") =
        [{ Pincode := "\t", Response := none,
           Error := "Error creating request: " ++
             "net/url: invalid control character in URL" }]) :=
  ⟨⟨by decide, by decide,
     ((empty_pincode_rejected (envDown "dial tcp: i/o timeout")).2.1 " " (by decide) rfl).1⟩,
   ⟨by decide, by decide,
     ((empty_pincode_rejected (envBadRequest "net/url: invalid control character in URL")).2.2
       "\t" "net/url: invalid control character in URL" (by decide) rfl).2⟩⟩

/-- C1 as stated fails: the form value " " consists of whitespace only, yet
with an unreachable upstream the handler makes three upstream calls and the
page view it renders carries the unavailability message, not the validation
message. -/
theorem whitespace_pincode_not_rejected :
    isBlank " " = true ∧
    attempts (searchHandler (envDown "dial tcp: i/o timeout") " ") = 3 ∧
    rendered (searchHandler (envDown "dial tcp: i/o timeout") " ") =
      [{ Pincode := " ", Response := none,
         Error := "Unable to connect to the postal service. Please try again later." }] ∧
    ¬ (attempts (searchHandler (envDown "dial tcp: i/o timeout") " ") = 0 ∧
       rendered (searchHandler (envDown "dial tcp: i/o timeout") " ") =
         [{ Pincode := " ", Response := none, Error := "Please enter a pincode" }]) := by
  refine ⟨by decide, by decide, by decide, ?_⟩
  decide

/-- C2: for a non-empty pincode and an upstream body that decodes to a
non-empty array whose first element has a Status other than "Success", the
handler renders one page view, with Response absent and Error equal to the
first element's Message when that is non-empty and to "No data found for the
provided pincode" when it is empty. -/
theorem failure_status_page (env : Env) (pincode body : String) (first : PostalResponse)
    (rest : List PostalResponse) (hp : pincode ≠ "") (hb : UpstreamBody env pincode body)
    (hu : env.unmarshal body = Except.ok (first :: rest)) (hs : first.Status ≠ "Success") :
    (first.Message ≠ "" →
      rendered (searchHandler env pincode) =
        [{ Pincode := pincode, Response := none, Error := first.Message }]) ∧
    (first.Message = "" →
      rendered (searchHandler env pincode) =
        [{ Pincode := pincode, Response := none,
           Error := "No data found for the provided pincode" }]) := by
  rw [(searchHandler_body env pincode body hp hb).1,
    rendered_mapResponse_failure env pincode body first rest hu hs]
  constructor <;> intro hm <;> simp [hm]

/-- Witness of C2: the upstream answers pincode 999999 with a single element
of Status "Error" and Message "No records found". -/
theorem failure_status_page_witness :
    rendered (searchHandler
        (envUp "[...]" (Except.ok [{ Message := "No records found", Status := "Error",
                                     PostOffice := [] }])) "999999") =
      [{ Pincode := "999999", Response := none, Error := "No records found" }] :=
  (failure_status_page
    (envUp "[...]" (Except.ok [{ Message := "No records found", Status := "Error",
                                 PostOffice := [] }]))
    "999999" "[...]" { Message := "No records found", Status := "Error", PostOffice := [] } []
    (by decide)
    ⟨0, okResponse "[...]", ⟨rfl, by decide, fun j hj => absurd hj (Nat.not_lt_zero j), rfl⟩, rfl⟩
    rfl (by decide)).1 (by decide)

/-- C3: for a non-empty pincode and an upstream body that decodes to a
non-empty array whose first element has Status "Success", the handler renders
one page view, with Pincode equal to the query, Error empty and Response
equal to the first element; the later elements of the array have no
influence on it. -/
theorem success_page (env : Env) (pincode body : String) (first : PostalResponse)
    (rest : List PostalResponse) (hp : pincode ≠ "") (hb : UpstreamBody env pincode body)
    (hu : env.unmarshal body = Except.ok (first :: rest)) (hs : first.Status = "Success") :
    rendered (searchHandler env pincode) =
      [{ Pincode := pincode, Response := some first, Error := "" }] ∧
    ∀ (env2 : Env) (body2 : String) (rest2 : List PostalResponse),
      UpstreamBody env2 pincode body2 → env2.unmarshal body2 = Except.ok (first :: rest2) →
      rendered (searchHandler env2 pincode) = rendered (searchHandler env pincode) := by
  have key : ∀ (e : Env) (b : String) (r : List PostalResponse), UpstreamBody e pincode b →
      e.unmarshal b = Except.ok (first :: r) →
      rendered (searchHandler e pincode) =
        [{ Pincode := pincode, Response := some first, Error := "" }] := by
    intro e b r hb1 hu1
    rw [(searchHandler_body e pincode b hp hb1).1,
      rendered_mapResponse_success e pincode b first r hu1 hs]
  refine ⟨key env body rest hb hu, ?_⟩
  intro env2 body2 rest2 hb2 hu2
  rw [key env2 body2 rest2 hb2 hu2, key env body rest hb hu]

/-- Witness of C3: the scenario of the specification, pincode 110001 answered
with one Success element holding the record of Connaught Place. -/
theorem success_page_witness :
    rendered (searchHandler
        (envUp "[...]" (Except.ok [{ Message := "", Status := "Success",
                                     PostOffice := [connaughtPlace] }])) "110001") =
      [{ Pincode := "110001",
         Response := some { Message := "", Status := "Success",
                            PostOffice := [connaughtPlace] },
         Error := "" }] :=
  (success_page
    (envUp "[...]" (Except.ok [{ Message := "", Status := "Success",
                                 PostOffice := [connaughtPlace] }]))
    "110001" "[...]" { Message := "", Status := "Success", PostOffice := [connaughtPlace] } []
    (by decide)
    ⟨0, okResponse "[...]", ⟨rfl, by decide, fun j hj => absurd hj (Nat.not_lt_zero j), rfl⟩, rfl⟩
    rfl rfl).1

/-- C4: for a non-empty pincode whose request is created, if the first three
upstream attempts all fail with a transport error, the handler makes exactly
three attempts, sleeps 1 second after the first and 2 seconds after the
second (3 seconds in all, nothing after the third), and renders one page
view, with Response absent and Error "Unable to connect to the postal
service. Please try again later.". -/
theorem three_failures_page (env : Env) (pincode : String) (hp : pincode ≠ "")
    (hreq : env.newRequest "GET" (upstreamURL pincode) = none)
    (hfail : ∀ j, j < 3 →
      ∃ e, env.clientDo (buildRequest (upstreamURL pincode)) j = Except.error e) :
    attempts (searchHandler env pincode) = 3 ∧
    network (searchHandler env pincode) =
      [Sum.inl 0, Sum.inr 1, Sum.inl 1, Sum.inr 2, Sum.inl 2] ∧
    sleeps (searchHandler env pincode) = [1, 2] ∧
    (sleeps (searchHandler env pincode)).sum = 3 ∧
    rendered (searchHandler env pincode) =
      [{ Pincode := pincode, Response := none,
         Error := "Unable to connect to the postal service. Please try again later." }] := by
  obtain ⟨evs, htrace, hr, -, hn, ha, hsl⟩ := searchHandler_allFail env pincode hp hreq hfail
  rw [htrace, attempts_log, network_log, sleeps_log, rendered_log, hr, hn, ha, hsl]
  exact ⟨rfl, rfl, rfl, rfl, rfl⟩

/-- Witness of C4: pincode 110001 with an upstream that times out. -/
theorem three_failures_page_witness :
    attempts (searchHandler (envDown "dial tcp: i/o timeout") "110001") = 3 ∧
    sleeps (searchHandler (envDown "dial tcp: i/o timeout") "110001") = [1, 2] :=
  have h := three_failures_page (envDown "dial tcp: i/o timeout") "110001" (by decide) rfl
    (fun _ _ => ⟨"dial tcp: i/o timeout", rfl⟩)
  ⟨h.1, h.2.2.1⟩

/-- C5: the text of a transport error never reaches the page view.  Whatever
the attempts return, the loop of lines 116-139 is left either by the `return`
of line 135, after the page with the fixed unavailability message, or by
`break` with a response and `err == nil`, so the branch of lines 140-148 is
not taken; and two environments that differ only in the texts of the
transport errors lead to the same page views. -/
theorem transport_error_not_shown (env : Env) (pincode : String) :
    (∀ req : Request,
      ((retryLoop env pincode req maxRetries maxRetries none none).2 = LoopExit.returned ∧
        rendered (retryLoop env pincode req maxRetries maxRetries none none).1 =
          [unavailablePage pincode]) ∨
      ∃ r, (retryLoop env pincode req maxRetries maxRetries none none).2 =
        LoopExit.done (some r) none) ∧
    (∀ env2 : Env, SameUpToErrorText env env2 →
      rendered (searchHandler env pincode) = rendered (searchHandler env2 pincode)) := by
  constructor
  · intro req
    rcases clientDo_cases env req with h | ⟨k, resp, hk, hf, hok⟩
    · obtain ⟨evs, hloop, hr, -⟩ := retryLoop_allFail env pincode req h
      exact Or.inl (by rw [hloop]; exact ⟨rfl, hr⟩)
    · obtain ⟨evs, hloop, -⟩ := retryLoop_firstSuccess env pincode req k resp hk hf hok
      exact Or.inr ⟨resp, by rw [hloop]⟩
  · intro env2 ⟨hnr, hum, hpf, hdo⟩
    rcases searchHandler_cases env pincode with hp | ⟨hp, e, hreq⟩ | ⟨hp, hreq, hfail⟩ |
      ⟨hp, k, resp, hfs⟩
    · rw [searchHandler_empty env pincode hp, searchHandler_empty env2 pincode hp,
        rendered_renderTemplate, rendered_renderTemplate]
    · rw [searchHandler_newRequest_error env pincode e hp hreq,
        searchHandler_newRequest_error env2 pincode e hp (by rw [← hnr]; exact hreq)]
      simp only [rendered_log, rendered_renderTemplate]
    · have hfail2 : ∀ j, j < maxRetries →
          ∃ e, env2.clientDo (buildRequest (upstreamURL pincode)) j = Except.error e := by
        intro j hj
        obtain ⟨e, he⟩ := hfail j hj
        rcases hdo (buildRequest (upstreamURL pincode)) j with ⟨r, h1, -⟩ | ⟨-, e2, -, h2⟩
        · rw [he] at h1; cases h1
        · exact ⟨e2, h2⟩
      obtain ⟨evs, htrace, hr, -⟩ := searchHandler_allFail env pincode hp hreq hfail
      obtain ⟨evs2, htrace2, hr2, -⟩ :=
        searchHandler_allFail env2 pincode hp (by rw [← hnr]; exact hreq) hfail2
      rw [htrace, htrace2, rendered_log, rendered_log, hr, hr2]
    · have hfs2 : FirstSuccess env2 pincode k resp := by
        obtain ⟨hreq, hk, hf, hok⟩ := hfs
        refine ⟨by rw [← hnr]; exact hreq, hk, ?_, ?_⟩
        · intro j hj
          obtain ⟨e, he⟩ := hf j hj
          rcases hdo (buildRequest (upstreamURL pincode)) j with ⟨r, h1, -⟩ | ⟨-, e2, -, h2⟩
          · rw [he] at h1; cases h1
          · exact ⟨e2, h2⟩
        · rcases hdo (buildRequest (upstreamURL pincode)) k with ⟨r, h1, h2⟩ | ⟨e1, -, h1, -⟩
          · rw [hok] at h1
            cases h1
            exact h2
          · rw [hok] at h1; cases h1
      obtain ⟨evs, htrace, hr, -⟩ := searchHandler_firstSuccess env pincode k resp hp hfs
      obtain ⟨evs2, htrace2, hr2, -⟩ := searchHandler_firstSuccess env2 pincode k resp hp hfs2
      rw [htrace, htrace2, rendered_log, rendered_log, rendered_append, rendered_append, hr, hr2,
        afterLoop_congr env env2 pincode (some resp) none hum hpf]

/-- Witness of C5: a timeout and a refused connection give the same page. -/
theorem transport_error_not_shown_witness :
    rendered (searchHandler (envDown "dial tcp: i/o timeout") "110001") =
      rendered (searchHandler (envDown "connection refused") "110001") :=
  (transport_error_not_shown (envDown "dial tcp: i/o timeout") "110001").2
    (envDown "connection refused")
    ⟨rfl, rfl, rfl, fun _ _ => Or.inr ⟨_, _, rfl, rfl⟩⟩

/-- C6: for a non-empty pincode and an upstream body that `json.Unmarshal`
rejects, the handler does not panic and renders one page view, with Response
absent and Error equal to "Error parsing JSON: " followed by the text of the
decoder's error. -/
theorem parse_error_page (env : Env) (pincode body e : String) (hp : pincode ≠ "")
    (hb : UpstreamBody env pincode body) (hu : env.unmarshal body = Except.error e) :
    panics (searchHandler env pincode) = 0 ∧
    rendered (searchHandler env pincode) =
      [{ Pincode := pincode, Response := none, Error := "Error parsing JSON: " ++ e }] := by
  obtain ⟨hr, hpn⟩ := searchHandler_body env pincode body hp hb
  exact ⟨hpn, by rw [hr, rendered_mapResponse_error env pincode body e hu]⟩

/-- Witness of C6: the upstream answers with an empty body. -/
theorem parse_error_page_witness :
    rendered (searchHandler (envUp "" (Except.error "unexpected end of JSON input"))
        "110001") =
      [{ Pincode := "110001", Response := none,
         Error := "Error parsing JSON: unexpected end of JSON input" }] :=
  (parse_error_page (envUp "" (Except.error "unexpected end of JSON input"))
    "110001" "" "unexpected end of JSON input" (by decide)
    ⟨0, okResponse "", ⟨rfl, by decide, fun j hj => absurd hj (Nat.not_lt_zero j), rfl⟩, rfl⟩
    rfl).2

/-- C7: every page view the handler renders, on every path, has exactly one
of Response and Error populated: Response is present if and only if Error is
the empty string. -/
theorem page_exactly_one (env : Env) (pincode : String) (d : PageData)
    (hd : d ∈ rendered (searchHandler env pincode)) :
    d.Response.isSome = true ↔ d.Error = "" := by
  rcases searchHandler_cases env pincode with hp | ⟨hp, e, hreq⟩ | ⟨hp, hreq, hfail⟩ |
    ⟨hp, k, resp, hfs⟩
  · rw [searchHandler_empty env pincode hp, rendered_renderTemplate] at hd
    simp at hd
    subst hd
    simp
  · rw [searchHandler_newRequest_error env pincode e hp hreq] at hd
    simp only [rendered_log, rendered_renderTemplate] at hd
    simp at hd
    subst hd
    simp only [Option.isSome_none, Bool.false_eq_true, false_iff]
    exact append_ne_empty _ _ (by decide)
  · obtain ⟨evs, htrace, hr, -⟩ := searchHandler_allFail env pincode hp hreq hfail
    rw [htrace, rendered_log, hr] at hd
    simp at hd
    subst hd
    simp [unavailablePage]
  · obtain ⟨evs, htrace, hr, -⟩ := searchHandler_firstSuccess env pincode k resp hp hfs
    rw [htrace, rendered_log, rendered_append, hr, List.nil_append] at hd
    exact exactlyOne_afterLoop env pincode (some resp) none d hd

/-- Witness of C7: the page view of the empty form value. -/
theorem page_exactly_one_witness :
    ({ Pincode := "", Response := none, Error := "Please enter a pincode" } : PageData) ∈
        rendered (searchHandler (envDown "dial tcp: i/o timeout") "") ∧
    ((none : Option PostalResponse).isSome = true ↔ "Please enter a pincode" = "") :=
  ⟨by decide,
   page_exactly_one (envDown "dial tcp: i/o timeout") ""
    { Pincode := "", Response := none, Error := "Please enter a pincode" } (by decide)⟩

/-- C8: for a non-empty pincode and an upstream body that decodes to the
empty array, the handler does not panic (no index is taken out of range) and
renders one page view, with Response absent and Error "No data found for the
provided pincode". -/
theorem empty_array_page (env : Env) (pincode body : String) (hp : pincode ≠ "")
    (hb : UpstreamBody env pincode body) (hu : env.unmarshal body = Except.ok []) :
    panics (searchHandler env pincode) = 0 ∧
    rendered (searchHandler env pincode) =
      [{ Pincode := pincode, Response := none,
         Error := "No data found for the provided pincode" }] := by
  obtain ⟨hr, hpn⟩ := searchHandler_body env pincode body hp hb
  exact ⟨hpn, by rw [hr, rendered_mapResponse_nil env pincode body hu]⟩

/-- Witness of C8: the upstream answers `[]`. -/
theorem empty_array_page_witness :
    panics (searchHandler (envUp "[]" (Except.ok [])) "110001") = 0 ∧
    rendered (searchHandler (envUp "[]" (Except.ok [])) "110001") =
      [{ Pincode := "110001", Response := none,
         Error := "No data found for the provided pincode" }] :=
  empty_array_page (envUp "[]" (Except.ok [])) "110001" "[]" (by decide)
    ⟨0, okResponse "[]", ⟨rfl, by decide, fun j hj => absurd hj (Nat.not_lt_zero j), rfl⟩, rfl⟩
    rfl

/-- C9, as the code has it: on a successful lookup only the first upstream
element is used, and the page view carries it whole: the Response of the
rendered page view holds every PostOffice entry of that element, in the
upstream order, however many there are. -/
theorem success_keeps_post_offices (env : Env) (pincode body : String)
    (first : PostalResponse) (rest : List PostalResponse) (hp : pincode ≠ "")
    (hb : UpstreamBody env pincode body)
    (hu : env.unmarshal body = Except.ok (first :: rest)) (hs : first.Status = "Success") :
    (rendered (searchHandler env pincode)).map
        (fun d => d.Response.map (fun r => r.PostOffice)) =
      [some first.PostOffice] := by
  rw [(searchHandler_body env pincode body hp hb).1,
    rendered_mapResponse_success env pincode body first rest hu hs]
  rfl

/-- Witness of C9 as amended: one Success element with two records. -/
theorem success_keeps_post_offices_witness :
    (rendered (searchHandler
        (envUp "[...]" (Except.ok [{ Message := "", Status := "Success",
                                     PostOffice := [connaughtPlace, janpath] }]))
        "110001")).map (fun d => d.Response.map (fun r => r.PostOffice)) =
      [some [connaughtPlace, janpath]] :=
  success_keeps_post_offices
    (envUp "[...]" (Except.ok [{ Message := "", Status := "Success",
                                 PostOffice := [connaughtPlace, janpath] }]))
    "110001" "[...]"
    { Message := "", Status := "Success", PostOffice := [connaughtPlace, janpath] } []
    (by decide)
    ⟨0, okResponse "[...]", ⟨rfl, by decide, fun j hj => absurd hj (Nat.not_lt_zero j), rfl⟩, rfl⟩
    rfl rfl

/-- C9 as stated fails: the upstream answers pincode 110001 with one Success
element holding two PostOffice records; the page view the handler renders
carries both of them, the second included. -/
theorem second_post_office_kept :
    rendered (searchHandler
        (envUp "[...]" (Except.ok [{ Message := "", Status := "Success",
                                     PostOffice := [connaughtPlace, janpath] }]))
        "110001") =
      [{ Pincode := "110001",
         Response := some { Message := "", Status := "Success",
                            PostOffice := [connaughtPlace, janpath] },
         Error := "" }] ∧
    ([connaughtPlace, janpath] : List PostOffice).length = 2 ∧
    ([connaughtPlace, janpath] : List PostOffice) ≠ [connaughtPlace] := by
  refine ⟨by decide, by decide, by decide⟩

/-- C10: when the first attempt that succeeds is attempt `k`, with
`1 ≤ k ≤ 3` (the `k - 1` attempts before it fail), the handler makes exactly
`k` attempts, sleeps 1, ..., `k - 1` seconds between them and at no other
time (`k (k - 1) / 2` seconds in all), and goes on from line 140 with the
response of attempt `k`; and whatever the attempts return, the handler makes
at most 3 of them. -/
theorem retry_loop_attempts (env : Env) (pincode : String) :
    (∀ (k : Nat) (resp : HttpResponse), pincode ≠ "" → 1 ≤ k →
      FirstSuccess env pincode (k - 1) resp →
      attempts (searchHandler env pincode) = k ∧
      sleeps (searchHandler env pincode) = List.range' 1 (k - 1) ∧
      (sleeps (searchHandler env pincode)).sum = k * (k - 1) / 2 ∧
      network (searchHandler env pincode) = loopNetwork (k - 1) ∧
      ∃ evs, searchHandler env pincode =
          Event.log ("Making request to: " ++ upstreamURL pincode) ::
            (evs ++ afterLoop env pincode (some resp) none) ∧
        network evs = loopNetwork (k - 1)) ∧
    attempts (searchHandler env pincode) ≤ 3 := by
  constructor
  · intro k resp hp hk hfs
    obtain ⟨evs, htrace, -, -, hn, ha, hsl⟩ :=
      searchHandler_firstSuccess env pincode (k - 1) resp hp hfs
    obtain ⟨qa, qs, qn, -⟩ := afterLoop_quiet env pincode resp
    have hk3 : k ≤ 3 := by
      have := hfs.2.1
      unfold maxRetries at this
      omega
    have hatt : attempts (searchHandler env pincode) = k := by
      rw [htrace, attempts_log, attempts_append, ha, qa]
      omega
    have hsleeps : sleeps (searchHandler env pincode) = List.range' 1 (k - 1) := by
      rw [htrace, sleeps_log, sleeps_append, hsl, qs, List.append_nil]
    have hnet : network (searchHandler env pincode) = loopNetwork (k - 1) := by
      rw [htrace, network_log, network_append, hn, qn, List.append_nil]
    refine ⟨hatt, hsleeps, ?_, hnet, evs, htrace, hn⟩
    rw [hsleeps]
    interval_cases k <;> decide
  · rcases searchHandler_cases env pincode with hp | ⟨hp, e, hreq⟩ | ⟨hp, hreq, hfail⟩ |
      ⟨hp, k, resp, hfs⟩
    · rw [searchHandler_empty env pincode hp, attempts_renderTemplate]
      omega
    · rw [searchHandler_newRequest_error env pincode e hp hreq]
      simp only [attempts_log, attempts_renderTemplate]
      omega
    · obtain ⟨evs, htrace, -, -, -, ha, -⟩ := searchHandler_allFail env pincode hp hreq hfail
      rw [htrace, attempts_log, ha]
    · obtain ⟨evs, htrace, -, -, -, ha, -⟩ := searchHandler_firstSuccess env pincode k resp hp hfs
      obtain ⟨qa, -⟩ := afterLoop_quiet env pincode resp
      have := hfs.2.1
      unfold maxRetries at this
      rw [htrace, attempts_log, attempts_append, ha, qa]
      omega

/-- Witness of C10: the first attempt fails, the second is answered: two
attempts, one sleep of 1 second between them. -/
theorem retry_loop_attempts_witness :
    attempts (searchHandler (envSecondTry "[]" (Except.ok [])) "110001") = 2 ∧
    network (searchHandler (envSecondTry "[]" (Except.ok [])) "110001") =
      [Sum.inl 0, Sum.inr 1, Sum.inl 1] :=
  have h := (retry_loop_attempts (envSecondTry "[]" (Except.ok [])) "110001").1 2
    (okResponse "[]") (by decide) (by decide)
    ⟨rfl, by decide,
      fun j hj => ⟨"connection reset by peer", by
        have h0 : j = 0 := by omega
        subst h0
        rfl⟩,
      rfl⟩
  ⟨h.1, h.2.2.2.1⟩

end Pincode
